import Mathlib

/-
Verification development for the ingestion core of the
BringLifeIntoDatabase repository: the deduplication engine
(`src/utils/deduplication.py`) and the event router
(`src/core/event_router.py`, `src/core/database.py`).

The Python code is shallowly embedded: pure functions become Lean
functions, stateful methods become explicit state passing, machine-level
hashing (hashlib.sha256 hexdigest) is embedded as a full SHA-256
implementation over `Nat` with explicit `% 2^32`, and fallible code
returns `Except`.
-/

set_option maxRecDepth 10000

namespace Sha256

/-- The constant 2^32, the word modulus of SHA-256. -/
def M32 : Nat := 4294967296

def add32 (a b : Nat) : Nat := (a + b) % M32

/-- Right rotation of a 32-bit word. -/
def rotr (n x : Nat) : Nat := ((x >>> n) ||| (x <<< (32 - n))) % M32

def bsig0 (x : Nat) : Nat := rotr 2 x ^^^ rotr 13 x ^^^ rotr 22 x

def bsig1 (x : Nat) : Nat := rotr 6 x ^^^ rotr 11 x ^^^ rotr 25 x

def ssig0 (x : Nat) : Nat := rotr 7 x ^^^ rotr 18 x ^^^ (x >>> 3)

def ssig1 (x : Nat) : Nat := rotr 17 x ^^^ rotr 19 x ^^^ (x >>> 10)

def ch (x y z : Nat) : Nat := (x &&& y) ^^^ ((x ^^^ 4294967295) &&& z)

def maj (x y z : Nat) : Nat := (x &&& y) ^^^ (y &&& z) ^^^ (x &&& z)

/-- The SHA-256 round constants (FIPS 180-4). -/
def K : List Nat :=
  [1116352408, 1899447441, 3049323471, 3921009573,
   961987163, 1508970993, 2453635748, 2870763221,
   3624381080, 310598401, 607225278, 1426881987,
   1925078388, 2162078206, 2614888103, 3248222580,
   3835390401, 4022224774, 264347078, 604807628,
   770255983, 1249150122, 1555081692, 1996064986,
   2554220882, 2821834349, 2952996808, 3210313671,
   3336571891, 3584528711, 113926993, 338241895,
   666307205, 773529912, 1294757372, 1396182291,
   1695183700, 1986661051, 2177026350, 2456956037,
   2730485921, 2820302411, 3259730800, 3345764771,
   3516065817, 3600352804, 4094571909, 275423344,
   430227734, 506948616, 659060556, 883997877,
   958139571, 1322822218, 1537002063, 1747873779,
   1955562222, 2024104815, 2227730452, 2361852424,
   2428436474, 2756734187, 3204031479, 3329325298]

/-- The SHA-256 initial hash state (FIPS 180-4). -/
def H0 : List Nat :=
  [1779033703, 3144134277, 1013904242, 2773480762,
   1359893119, 2600822924, 528734635, 1541459225]

/-- UTF-8 encoding of one code point, as byte values. -/
def encodeChar (c : Char) : List Nat :=
  let n := c.toNat
  if n < 0x80 then [n]
  else if n < 0x800 then [0xC0 + n / 64, 0x80 + n % 64]
  else if n < 0x10000 then [0xE0 + n / 4096, 0x80 + (n / 64) % 64, 0x80 + n % 64]
  else [0xF0 + n / 262144, 0x80 + (n / 4096) % 64, 0x80 + (n / 64) % 64, 0x80 + n % 64]

/-- UTF-8 encoding of a string (models Python `s.encode('utf-8')`). -/
def utf8Bytes (s : String) : List Nat := s.data.flatMap encodeChar

/-- Big-endian bytes of an 8-byte (64-bit) quantity. -/
def be8 (n : Nat) : List Nat :=
  (List.range 8).map (fun i => (n >>> (8 * (7 - i))) % 256)

/-- SHA-256 padding: append 0x80, zero bytes to 56 mod 64, then the bit length. -/
def padMessage (msg : List Nat) : List Nat :=
  let L := msg.length
  let z := (120 - (L + 1) % 64) % 64
  msg ++ [0x80] ++ List.replicate z 0 ++ be8 (8 * L)

/-- Split into chunks of `k` bytes, with explicit fuel for structural recursion. -/
def chunksF (k : Nat) : Nat → List Nat → List (List Nat)
  | 0, _ => []
  | _, [] => []
  | fuel + 1, x :: xs => ((x :: xs).take k) :: chunksF k fuel ((x :: xs).drop k)

/-- Big-endian 32-bit words from 4-byte groups. -/
def bytesToWords (bs : List Nat) : List Nat :=
  (chunksF 4 bs.length bs).map (fun g => g.foldl (fun acc b => acc * 256 + b) 0)

/-- Message-schedule extension: `ws` holds the words produced so far, most
recent first; each step prepends the next word. -/
def scheduleExt : Nat → List Nat → List Nat
  | 0, ws => ws
  | n + 1, ws =>
    let w := (add32 (add32 (ssig1 (ws.getD 1 0)) (ws.getD 6 0))
                    (add32 (ssig0 (ws.getD 14 0)) (ws.getD 15 0)))
    scheduleExt n (w :: ws)

/-- The 64-word message schedule of one block. -/
def schedule (block16 : List Nat) : List Nat :=
  (scheduleExt 48 block16.reverse).reverse

/-- One compression round on the state `[a,b,c,d,e,f,g,h]`. -/
def compressStep (st : List Nat) (wk : Nat × Nat) : List Nat :=
  match st with
  | [a, b, c, d, e, f, g, h] =>
    let t1 := (h + bsig1 e + ch e f g + wk.2 + wk.1) % M32
    let t2 := (bsig0 a + maj a b c) % M32
    [(t1 + t2) % M32, a, b, c, (d + t1) % M32, e, f, g]
  | other => other

/-- Process one 64-byte block into the running hash state. -/
def compressBlock (hs : List Nat) (block : List Nat) : List Nat :=
  let ws := schedule (bytesToWords block)
  let st := (ws.zip K).foldl compressStep hs
  (hs.zip st).map (fun p => add32 p.1 p.2)

/-- The eight 32-bit words of the SHA-256 digest of a byte message. -/
def sha256Bytes (msg : List Nat) : List Nat :=
  let padded := padMessage msg
  (chunksF 64 padded.length padded).foldl compressBlock H0

def hexDigit (n : Nat) : Char :=
  Char.ofNat (if n < 10 then 48 + n else 87 + n)

/-- Lower-case hexadecimal rendering of a 32-bit word, zero-padded to 8 digits. -/
def hex8 (n : Nat) : String :=
  String.mk ((List.range 8).map (fun i => hexDigit ((n >>> (4 * (7 - i))) % 16)))

end Sha256

/-- Models Python `hashlib.sha256(s.encode('utf-8')).hexdigest()`. -/
def sha256hex (s : String) : String :=
  String.join ((Sha256.sha256Bytes (Sha256.utf8Bytes s)).map Sha256.hex8)

/-! ## Python datetime model

`deduplication._bucket_timestamp` uses `datetime.fromisoformat`,
`datetime.replace`, `datetime.isoformat`, `datetime.utcnow`, and the
`minute` attribute.  We model a datetime value by its calendar fields
plus an optional UTC offset (`none` = naive datetime). -/

structure Dtm where
  year : Nat
  month : Nat
  day : Nat
  hour : Nat
  minute : Nat
  second : Nat
  microsecond : Nat
  /-- UTC offset in minutes; `none` models a naive datetime. -/
  tzoffset : Option Int
deriving DecidableEq, Repr

def digitVal (c : Char) : Option Nat :=
  if c.isDigit then some (c.toNat - 48) else none

def parse2 (a b : Char) : Option Nat := do
  let x ← digitVal a
  let y ← digitVal b
  pure (10 * x + y)

def parse4 (a b c d : Char) : Option Nat := do
  let x ← parse2 a b
  let y ← parse2 c d
  pure (100 * x + y)

/-- Offset suffix of an ISO string: empty (naive) or `±HH:MM`. -/
def parseOffsetChars : List Char → Option (Option Int)
  | [] => some none
  | ['+', h1, h2, ':', m1, m2] => do
    let h ← parse2 h1 h2
    let m ← parse2 m1 m2
    if h ≤ 23 ∧ m ≤ 59 then pure (some ((60 * h + m : Nat) : Int)) else none
  | ['-', h1, h2, ':', m1, m2] => do
    let h ← parse2 h1 h2
    let m ← parse2 m1 m2
    if h ≤ 23 ∧ m ≤ 59 then pure (some (-((60 * h + m : Nat) : Int))) else none
  | _ => none

/-- Proleptic-Gregorian leap-year rule, as used by Python `datetime`. -/
def isLeapYear (y : Nat) : Bool :=
  y % 4 == 0 && (y % 100 != 0 || y % 400 == 0)

/-- Number of days of a month, as validated by the Python `datetime`
constructor (which `fromisoformat` calls). -/
def daysInMonth (y m : Nat) : Nat :=
  if m = 2 then (if isLeapYear y then 29 else 28)
  else if m = 4 ∨ m = 6 ∨ m = 9 ∨ m = 11 then 30
  else 31

/-- Models `datetime.fromisoformat` on the `YYYY-MM-DDTHH:MM:SS[±HH:MM]`
shapes the repository feeds it, including the constructor's calendar
validation (`MINYEAR = 1 ≤ year ≤ 9999 = MAXYEAR`, day within the month,
leap years); every other string is a parse failure (in Python, a
`ValueError`, caught by the bare `except`). -/
def fromisoformat (s : String) : Option Dtm :=
  match s.data with
  | y1 :: y2 :: y3 :: y4 :: '-' :: mo1 :: mo2 :: '-' :: d1 :: d2 :: 'T' ::
    h1 :: h2 :: ':' :: mi1 :: mi2 :: ':' :: s1 :: s2 :: rest => do
    let y ← parse4 y1 y2 y3 y4
    let mo ← parse2 mo1 mo2
    let d ← parse2 d1 d2
    let h ← parse2 h1 h2
    let mi ← parse2 mi1 mi2
    let sec ← parse2 s1 s2
    let off ← parseOffsetChars rest
    if 1 ≤ y ∧ y ≤ 9999 ∧ 1 ≤ mo ∧ mo ≤ 12 ∧ 1 ≤ d ∧ d ≤ daysInMonth y mo ∧
        h ≤ 23 ∧ mi ≤ 59 ∧ sec ≤ 59 then
      pure ⟨y, mo, d, h, mi, sec, 0, off⟩
    else none
  | _ => none

def pad2 (n : Nat) : String :=
  if n < 10 then "0" ++ toString n else toString n

def pad4 (n : Nat) : String :=
  if n < 10 then "000" ++ toString n
  else if n < 100 then "00" ++ toString n
  else if n < 1000 then "0" ++ toString n
  else toString n

def pad6 (n : Nat) : String :=
  if n < 10 then "00000" ++ toString n
  else if n < 100 then "0000" ++ toString n
  else if n < 1000 then "000" ++ toString n
  else if n < 10000 then "00" ++ toString n
  else if n < 100000 then "0" ++ toString n
  else toString n

def offsetStr : Option Int → String
  | none => ""
  | some o =>
    (if o < 0 then "-" else "+") ++ pad2 (o.natAbs / 60) ++ ":" ++ pad2 (o.natAbs % 60)

/-- Models `datetime.isoformat` with a choice of date/time separator
(`'T'` for `isoformat()`, `' '` for `str(datetime)`). -/
def isoformatSep (sep : Char) (t : Dtm) : String :=
  pad4 t.year ++ "-" ++ pad2 t.month ++ "-" ++ pad2 t.day ++ String.singleton sep ++
  pad2 t.hour ++ ":" ++ pad2 t.minute ++ ":" ++ pad2 t.second ++
  (if t.microsecond = 0 then "" else "." ++ pad6 t.microsecond) ++
  offsetStr t.tzoffset

/-- Models `datetime.isoformat()`. -/
def Dtm.isoformat (t : Dtm) : String := isoformatSep 'T' t

/-- Models Python `str(datetime)` (ISO format with a space separator). -/
def Dtm.pyStr (t : Dtm) : String := isoformatSep ' ' t

/-- Models `timestamp.replace('Z', '+00:00')`: `'Z'` is a single
character, so the substring replacement is character-wise. -/
def replaceZ (s : String) : String :=
  String.mk (s.data.flatMap (fun c => if c = 'Z' then ('+' :: '0' :: '0' :: ':' :: '0' :: '0' :: []) else [c]))

/-! ## Deduplication engine (`src/utils/deduplication.py`) -/

/-- Python exception classes raised by the embedded code paths. -/
inductive PyErr
  | typeError
  | valueError
  | connError
  | jsonError
deriving DecidableEq, Repr

/-- The value stored in `self.bucket_minutes`.  `__init__` executes
`self.bucket_minutes = 5,` — the trailing comma makes it the one-element
tuple `(5,)`, modelled by `tup`; `set_bucket_interval` later stores a
plain int, modelled by `intv`. -/
inductive BucketMinutes
  | intv (n : Nat)
  | tup (n : Nat)
deriving DecidableEq, Repr

/-- Models `(timestamp.minute // self.bucket_minutes) * self.bucket_minutes`:
with an int this is flooring to a multiple; with the tuple value the
`//` raises `TypeError` (unsupported operand types int and tuple). -/
def BucketMinutes.floorMul (b : BucketMinutes) (minute : Nat) : Except PyErr Nat :=
  match b with
  | .intv n => .ok (minute / n * n)
  | .tup _ => .error .typeError

/-- A timestamp-valued observation field: either a string or a
`datetime` object. -/
inductive TsVal
  | str (raw : String)
  | dt (t : Dtm)
deriving DecidableEq, Repr

/-- Python `str()` of a timestamp field value. -/
def TsVal.pyStr : TsVal → String
  | .str raw => raw
  | .dt t => t.pyStr

/-- An observation dict as read by `generate_fingerprint`.  Fields read
through `data.get(k, '')` and then `str()` are plain strings (absence
becomes `""`); fields used only when truthy are `Option` values, with
`none` standing for "absent or falsy" and `some v` for a truthy value
(its `str()` image for the disambiguators). -/
structure Observation where
  db_id : String := ""
  table_name : String := ""
  event_type : String := ""
  timestamp : Option TsVal := none
  executed_at : Option TsVal := none
  recorded_at : Option TsVal := none
  measured_at : Option TsVal := none
  query_hash : Option String := none
  index_name : Option String := none
  column_name : Option String := none
deriving DecidableEq, Repr

/-- Models `data.get('timestamp') or data.get('executed_at') or
data.get('recorded_at') or data.get('measured_at')`: the first truthy
value in that order. -/
def Observation.effTimestamp (d : Observation) : Option TsVal :=
  d.timestamp <|> d.executed_at <|> d.recorded_at <|> d.measured_at

/-- Mutable state of a `DeduplicationEngine`: `bucket_minutes` and the
fingerprint cache (a dict from cache key to `(cache_time, exists)`,
modelled as an association list with distinct keys). -/
structure DedupEngine where
  bucket_minutes : BucketMinutes
  cache : List (String × Nat × Bool)
deriving DecidableEq, Repr

/-- The state `__init__` produces: `self.bucket_minutes = 5,` (the tuple)
and an empty cache. -/
def DedupEngine.init : DedupEngine := ⟨.tup 5, []⟩

/-- Models `self.cache_ttl = 3600`; set in `__init__` and never mutated
anywhere in the repository. -/
def cache_ttl : Nat := 3600

/-- Models `DeduplicationEngine._bucket_timestamp`.  Here `now` is the value
`datetime.utcnow()` would return at the call (used only on the
unparsable-string fallback path). -/
def bucket_timestamp (eng : DedupEngine) (ts : TsVal) (now : Dtm) : Except PyErr String :=
  let t : Dtm :=
    match ts with
    | .str raw =>
      match fromisoformat (replaceZ raw) with
      | some t => t
      | none => now
    | .dt t => t
  match eng.bucket_minutes.floorMul t.minute with
  | .error e => .error e
  | .ok m => .ok (Dtm.isoformat { t with minute := m, second := 0, microsecond := 0 })

/-- The `key_parts` list built by `generate_fingerprint` (before the
`":".join` and hashing); raises whatever `_bucket_timestamp` raises. -/
def keyParts (eng : DedupEngine) (d : Observation) (bucket_time : Bool) (now : Dtm) :
    Except PyErr (List String) := do
  let base := [d.db_id, d.table_name, d.event_type]
  let withTime ←
    match d.effTimestamp with
    | none => pure base
    | some ts =>
      if bucket_time then do
        let b ← bucket_timestamp eng ts now
        pure (base ++ [b])
      else
        pure (base ++ [ts.pyStr])
  pure (withTime ++
    (match d.query_hash with | none => [] | some s => [s]) ++
    (match d.index_name with | none => [] | some s => [s]) ++
    (match d.column_name with | none => [] | some s => [s]))

/-- Models `DeduplicationEngine.generate_fingerprint`: sha256 hexdigest of the
colon-joined key parts. -/
def generate_fingerprint (eng : DedupEngine) (d : Observation) (bucket_time : Bool) (now : Dtm) :
    Except PyErr String :=
  (keyParts eng d bucket_time now).map (fun ps => sha256hex (String.intercalate ":" ps))

/-- Models `DeduplicationEngine.set_bucket_interval`: validates the range and
stores a plain int. -/
def set_bucket_interval (eng : DedupEngine) (minutes : Int) : Except PyErr DedupEngine :=
  if minutes < 1 ∨ minutes > 60 then .error .valueError
  else .ok { eng with bucket_minutes := .intv minutes.toNat }

/-! ### Fingerprint cache and the existence check

Wall-clock instants for the cache (`datetime.utcnow()` values) are
modelled as seconds since an epoch.  The comparison
`(datetime.utcnow() - cache_time).seconds < self.cache_ttl` reads the
`seconds` attribute of the timedelta, which is the seconds-within-day
component (`0 ≤ seconds < 86400`), not the total age. -/

/-- Models `timedelta.seconds` of `now - cacheTime` (for `now ≥ cacheTime`). -/
def tdSeconds (now cacheTime : Nat) : Nat := (now - cacheTime) % 86400

/-- Dict read `self.cache[cache_key]`. -/
def cacheLookup (cache : List (String × Nat × Bool)) (k : String) : Option (Nat × Bool) :=
  List.lookup k cache

/-- Dict write `self.cache[cache_key] = v`. -/
def cacheInsert (cache : List (String × Nat × Bool)) (k : String) (v : Nat × Bool) :
    List (String × Nat × Bool) :=
  (k, v) :: cache.filter (fun e => e.1 != k)

/-- The cache-hit test at the top of `alread_exists`: a stored verdict is
returned iff the key is present and
`(datetime.utcnow() - cache_time).seconds < self.cache_ttl`. -/
def freshVerdict (cache : List (String × Nat × Bool)) (k : String) (now : Nat) : Option Bool :=
  match cacheLookup cache k with
  | some (t, ex) => if tdSeconds now t < cache_ttl then some ex else none
  | none => none

/-- Models `DeduplicationEngine._get_time_column`: fixed dict with default
`'timestamp'`. -/
def get_time_column (hypertable : String) : String :=
  (List.lookup hypertable
    [("schema_metadata", "captured_at"),
     ("query_performance", "executed_at"),
     ("index_analytics", "measured_at"),
     ("table_statistics", "recorded_at"),
     ("semantic_relationships", "discovered_at"),
     ("system_health", "timestamp"),
     ("data_quality_metrics", "measured_at"),
     ("agent_actions", "executed_at")]).getD "timestamp"

/-- The SQL text `alread_exists` sends to the Oracle (the f-string
literal, including its embedded newline and indentation). -/
def existsQuery (hypertable : String) (lookback_hours : Nat) : String :=
  "SELECT EXISTS (\n        SELECT 1 FROM _agentic." ++ hypertable ++
  " WHERE fingerprint =$1 AND " ++ get_time_column hypertable ++
  "> NOW() - INTERVAL '" ++ toString lookback_hours ++ "' hours);"

/-- Outcome of one `alread_exists` call: the returned boolean, the
engine state afterwards, whether the Oracle was queried, and the SQL
text sent to it (if any). -/
structure ExistsResult where
  result : Bool
  engine : DedupEngine
  oracleQueried : Bool
  query : Option String
deriving DecidableEq, Repr

/-- Models `DeduplicationEngine.alread_exists` (the source spells the name
without the trailing `y`).  `oracle` is the outcome
`await self.db.fetchval_ts_db(query, fingerprint)` would produce:
`.ok b` a verdict, `.error e` a raised exception (caught by the
`except`, which logs and returns `False` without touching the cache). -/
def alread_exists (eng : DedupEngine) (fingerprint hypertable : String)
    (lookback_hours : Nat) (now : Nat) (oracle : Except PyErr Bool) : ExistsResult :=
  let cache_key := hypertable ++ ":" ++ fingerprint
  match freshVerdict eng.cache cache_key now with
  | some ex => ⟨ex, eng, false, none⟩
  | none =>
    let query := existsQuery hypertable lookback_hours
    match oracle with
    | .ok ex => ⟨ex, { eng with cache := cacheInsert eng.cache cache_key (now, ex) }, true, some query⟩
    | .error _ => ⟨false, eng, true, some query⟩

/-- Models `DeduplicationEngine.mark_inserted`: store `(utcnow, True)` under the
cache key. -/
def mark_inserted (eng : DedupEngine) (fingerprint hypertable : String) (now : Nat) : DedupEngine :=
  { eng with cache := cacheInsert eng.cache (hypertable ++ ":" ++ fingerprint) (now, true) }

/-! ## Event router (`src/core/event_router.py`, `src/core/database.py`) -/

/-- Externally visible actions of the router loop. -/
inductive RAct
  | listen (c : String)
  | sleepWait
deriving DecidableEq, Repr

/-- Action trace of `EventRouter.start_listening` in the run where every
`listen_channel` call succeeds and `stop()` flips `self.running` to
false after `budget` iterations of the polling sleep.  The source nests
the `while self.running: await asyncio.sleep(1)` loop inside the
`for channel in self.subscribers.keys()` loop, so the first channel's
wait loop consumes the whole budget and every later channel is listened
only once the budget is exhausted (i.e. after `stop()`). -/
def startListeningActs : List String → Nat → List RAct
  | [], _ => []
  | c :: rest, budget =>
    RAct.listen c :: (List.replicate budget RAct.sleepWait ++ startListeningActs rest 0)

def isWaitAct : RAct → Bool
  | .sleepWait => true
  | _ => false

def listenedChannels (acts : List RAct) : List String :=
  acts.filterMap (fun a => match a with | .listen c => some c | _ => none)

/-- The channels whose transport listen is opened before the loop first
enters its passive wait (first `asyncio.sleep`). -/
def listensBeforeWait (acts : List RAct) : List String :=
  listenedChannels (acts.takeWhile (fun a => !(isWaitAct a)))

/-- Outcome of one `EventRouter.emit` call: what the caller observes and
whether an error was logged. -/
structure EmitResult where
  toCaller : Except PyErr Unit
  errorLogged : Bool
deriving Repr

/-- Models `EventRouter.emit`: there `json.dumps` and `self.db.notify` both run inside
`try`; any exception is caught, logged, and not re-raised, so the
method always returns `None` to its caller.  `serialized` is the
outcome of `json.dumps(data)` and `publish` the outcome of
`self.db.notify(channel, payload)`. -/
def emit (serialized : Except PyErr String) (publish : String → Except PyErr Unit) : EmitResult :=
  match serialized with
  | .error _ => ⟨.ok (), true⟩
  | .ok payload =>
    match publish payload with
    | .ok _ => ⟨.ok (), false⟩
    | .error _ => ⟨.ok (), true⟩

/-- Log lines produced by the cleanup path. -/
inductive LogEntry
  | warnNotListening (c : String)
  | infoStopped (c : String)
  | errorUnlisten (c : String)
  | infoCleanupComplete
deriving DecidableEq, Repr

/-- Models `Database.unlisten_channel`: a no-op (with a warning) when the
channel has no listener connection; otherwise the whole
remove/release/delete sequence runs inside `try`, whose `except` logs
and returns — the method never raises.  `removeOk c = false` models an
exception anywhere in that sequence, leaving the listener entry in
place. -/
def unlisten_channel (listeners : List String) (removeOk : String → Bool) (c : String) :
    List String × List LogEntry :=
  if c ∈ listeners then
    if removeOk c then (listeners.erase c, [.infoStopped c])
    else (listeners, [.errorUnlisten c])
  else (listeners, [.warnNotListening c])

/-- The loop of `EventRouter.cleanup` over `list(self.subscribers.keys())`,
threading the database listener dict and accumulating log output.
Because `unlisten_channel` never raises, the router-level `try/except`
around the loop never fires and every subscribed channel is processed. -/
def cleanupAux (removeOk : String → Bool) : List String → List String → List String × List LogEntry
  | [], listeners => (listeners, [LogEntry.infoCleanupComplete])
  | c :: rest, listeners =>
    let st := unlisten_channel listeners removeOk c
    let fin := cleanupAux removeOk rest st.1
    (fin.1, st.2 ++ fin.2)

/-- Models `EventRouter.cleanup`: release the transport listen of every
subscribed channel. -/
def cleanup (subscribers : List String) (listeners : List String) (removeOk : String → Bool) :
    List String × List LogEntry :=
  cleanupAux removeOk subscribers listeners

/-! ## Concrete inputs used by the theorems below -/

/-- The observation of spec §8's worked scenario. -/
def obsScenarioA : Observation :=
  { db_id := "db1", table_name := "orders", event_type := "slow_query",
    executed_at := some (.str "2024-01-01T10:03:30Z"), query_hash := some "abc123" }

/-- The same observation at `10:04:50Z` (same 5-minute bucket). -/
def obsScenarioB : Observation :=
  { obsScenarioA with executed_at := some (.str "2024-01-01T10:04:50Z") }

/-- The same observation at `10:05:01Z` (next 5-minute bucket). -/
def obsScenarioC : Observation :=
  { obsScenarioA with executed_at := some (.str "2024-01-01T10:05:01Z") }

/-- An arbitrary `datetime.utcnow()` value for calls whose result should
not depend on it. -/
def now0 : Dtm := ⟨2024, 1, 1, 0, 0, 0, 0, none⟩

/-- An engine whose bucket interval has been set to the int `5` through
`set_bucket_interval` (replacing the initial tuple). -/
def engIntv5 : DedupEngine :=
  match set_bucket_interval DedupEngine.init 5 with
  | .ok e => e
  | .error _ => DedupEngine.init

/-- An observation whose timestamp field is present but unparsable. -/
def obsUnparsable : Observation :=
  { db_id := "db1", table_name := "t", event_type := "e",
    executed_at := some (.str "not-a-timestamp") }

/-- Wall clock at the first call of the C9 counterexample. -/
def nowA : Dtm := ⟨2024, 1, 1, 10, 0, 0, 0, none⟩

/-- Wall clock one hour later, at the second call. -/
def nowB : Dtm := ⟨2024, 1, 1, 11, 0, 0, 0, none⟩

/-- An engine state right after `mark_inserted(fp3, query_performance)`
at epoch second 0. -/
def engC3 : DedupEngine := mark_inserted DedupEngine.init "fp3" "query_performance" 0

/-- An observation with no time-valued field at all. -/
def obsNoTime : Observation :=
  { db_id := "db1", table_name := "t", event_type := "e", query_hash := some "q" }

/-- A transport publish that always fails with a connection error. -/
def pubFail : String → Except PyErr Unit := fun _ => .error .connError

/-- A per-channel release outcome that fails exactly on channel `b`. -/
def rokW : String → Bool := fun c => c != "b"

/-- Decidable test for the timestamps on which `generate_fingerprint`
does not consult the wall clock: the observation carries no (truthy)
timestamp field, or the value is a `datetime` object, or it is a string
accepted by `fromisoformat` after the `Z` replacement. -/
def tsIndependent (d : Observation) : Bool :=
  match d.effTimestamp with
  | none => true
  | some (.dt _) => true
  | some (.str raw) => (fromisoformat (replaceZ raw)).isSome

/-! ## Helper lemmas -/

instance {ε α : Type} [DecidableEq ε] [DecidableEq α] : DecidableEq (Except ε α) := by
  intro a b
  cases a <;> cases b
  case error.error e1 e2 =>
    exact match decEq e1 e2 with
      | isTrue h => isTrue (by rw [h])
      | isFalse h => isFalse (by intro hc; cases hc; exact h rfl)
  case ok.ok v1 v2 =>
    exact match decEq v1 v2 with
      | isTrue h => isTrue (by rw [h])
      | isFalse h => isFalse (by intro hc; cases hc; exact h rfl)
  case error.ok e v => exact isFalse (by intro hc; cases hc)
  case ok.error v e => exact isFalse (by intro hc; cases hc)

theorem bucket_timestamp_tup (n : Nat) (cache : List (String × Nat × Bool))
    (ts : TsVal) (now : Dtm) :
    bucket_timestamp ⟨.tup n, cache⟩ ts now = .error .typeError := by
  cases ts with
  | str raw =>
    cases h : fromisoformat (replaceZ raw) <;>
      simp [bucket_timestamp, h, BucketMinutes.floorMul]
  | dt t => simp [bucket_timestamp, BucketMinutes.floorMul]

theorem mem_of_mem_unlisten {x : String} {l : List String} {rok : String → Bool} {a : String}
    (hx : x ∈ (unlisten_channel l rok a).1) : x ∈ l := by
  unfold unlisten_channel at hx
  split at hx
  · split at hx
    · exact List.mem_of_mem_erase hx
    · exact hx
  · exact hx

theorem nodup_unlisten {l : List String} {rok : String → Bool} {a : String}
    (h : l.Nodup) : (unlisten_channel l rok a).1.Nodup := by
  unfold unlisten_channel
  split
  · split
    · exact h.erase a
    · exact h
  · exact h

theorem mem_unlisten_of_ne {x : String} {l : List String} {rok : String → Bool} {a : String}
    (hne : x ≠ a) (hx : x ∈ l) : x ∈ (unlisten_channel l rok a).1 := by
  unfold unlisten_channel
  split
  · split
    · exact (List.mem_erase_of_ne hne).mpr hx
    · exact hx
  · exact hx

theorem not_mem_cleanupAux {x : String} {rok : String → Bool} :
    ∀ (subs : List String) (l : List String), x ∉ l → x ∉ (cleanupAux rok subs l).1 := by
  intro subs
  induction subs with
  | nil => intro l hl; simpa [cleanupAux] using hl
  | cons a rest ih =>
    intro l hl
    simp only [cleanupAux]
    exact ih _ (fun hmem => hl (mem_of_mem_unlisten hmem))

/-! ## Claim theorems -/

/-- C1.  The claim says that under the default 5-minute bucket width two
observations with identical identifying fields and same-bucket
timestamps get the same fingerprint.  On the code this is impossible:
`__init__` executes `self.bucket_minutes = 5,` whose trailing comma
stores the tuple `(5,)`, so for every observation carrying a (truthy)
timestamp field, `generate_fingerprint` with `bucket_time=True` reaches
`timestamp.minute // self.bucket_minutes` and raises `TypeError`
instead of returning a fingerprint. -/
theorem C1_default_bucket_raises (d : Observation) (ts : TsVal) (now : Dtm)
    (h : d.effTimestamp = some ts) :
    generate_fingerprint DedupEngine.init d true now = .error .typeError := by
  have hb := bucket_timestamp_tup 5 ([] : List (String × Nat × Bool)) ts now
  simp [generate_fingerprint, keyParts, h,
        show DedupEngine.init = ⟨.tup 5, []⟩ from rfl, hb, Except.map]

/-- Witness for C1 at the spec §8 scenario observation. -/
theorem C1_default_bucket_raises_witness :
    obsScenarioA.effTimestamp = some (TsVal.str "2024-01-01T10:03:30Z") ∧
    generate_fingerprint DedupEngine.init obsScenarioA true now0 = .error .typeError :=
  ⟨rfl, C1_default_bucket_raises obsScenarioA (TsVal.str "2024-01-01T10:03:30Z") now0 rfl⟩

/-- C2.  The spec scenario (bucket width 5 minutes, the `db1/orders/
slow_query/abc123` observation at `10:03:30Z`, `10:04:50Z`, `10:05:01Z`)
claims concrete fingerprints; the code instead raises `TypeError` on
all three observations because the default `bucket_minutes` is the tuple
`(5,)`, so no fingerprint is computed at all. -/
theorem C2_scenario_raises_typeerror :
    generate_fingerprint DedupEngine.init obsScenarioA true now0 = .error .typeError ∧
    generate_fingerprint DedupEngine.init obsScenarioB true now0 = .error .typeError ∧
    generate_fingerprint DedupEngine.init obsScenarioC true now0 = .error .typeError := by
  refine ⟨?_, ?_, ?_⟩ <;> decide

/-- C3.  The claim says a cached verdict is returned without an Oracle
query exactly when the entry is not older than the TTL (3600 s).  The
code tests `(datetime.utcnow() - cache_time).seconds < self.cache_ttl`,
and `timedelta.seconds` is the seconds-within-day component: an entry
whose age is exactly one day (86400 s, far older than the TTL) has
`seconds = 0` and is served from the cache with no Oracle query — the
verdict `true` is returned even though the Oracle would answer `false`. -/
theorem C3_stale_entry_served_after_one_day :
    alread_exists engC3 "fp3" "query_performance" 1 86400 (.ok false) =
      ⟨true, engC3, false, none⟩ ∧
    tdSeconds 86400 0 < cache_ttl ∧ 86400 - 0 > cache_ttl := by
  refine ⟨?_, ?_, ?_⟩ <;> decide

/-- C4.  `mark_inserted(f, h)` stores `(utcnow, True)` under
`h ++ ":" ++ f`; an immediately following `alread_exists(f, h)` finds
that entry with age 0 < TTL and returns `True` from the cache without
issuing an Oracle query — for every starting engine state, lookback
window, and Oracle behaviour. -/
theorem C4_mark_then_exists_cache_hit (eng : DedupEngine) (f h : String)
    (lookback now : Nat) (oracle : Except PyErr Bool) :
    (alread_exists (mark_inserted eng f h now) f h lookback now oracle).result = true ∧
    (alread_exists (mark_inserted eng f h now) f h lookback now oracle).oracleQueried = false := by
  have hfresh : freshVerdict (mark_inserted eng f h now).cache (h ++ ":" ++ f) now = some true := by
    simp [mark_inserted, freshVerdict, cacheLookup, cacheInsert, List.lookup,
          tdSeconds, cache_ttl]
  refine ⟨?_, ?_⟩ <;> simp [alread_exists, hfresh]

/-- C5.  The claim says `start_listening` opens a transport listen for
every subscribed channel before entering its passive wait.  In the code
the `while self.running: await asyncio.sleep(1)` loop is nested inside
the `for channel in self.subscribers.keys()` loop, so with two
subscribed channels and `stop()` requested after one polling sleep, the
trace is listen "a", sleep, listen "b": only the first channel is
listened before the wait state. -/
theorem C5_second_channel_listened_after_wait :
    startListeningActs ["a", "b"] 1 = [.listen "a", .sleepWait, .listen "b"] ∧
    listensBeforeWait (startListeningActs ["a", "b"] 1) = ["a"] ∧
    listenedChannels (startListeningActs ["a", "b"] 1) = ["a", "b"] := by
  refine ⟨?_, ?_, ?_⟩ <;> decide

/-- C6.  When the cache has no fresh entry and the Oracle query raises,
`alread_exists` returns `False` and leaves the engine (in particular
its fingerprint cache) unchanged: the failure verdict is not cached. -/
theorem C6_oracle_failure_not_cached (eng : DedupEngine) (f h : String)
    (lookback now : Nat) (e : PyErr)
    (hmiss : freshVerdict eng.cache (h ++ ":" ++ f) now = none) :
    alread_exists eng f h lookback now (.error e) =
      ⟨false, eng, true, some (existsQuery h lookback)⟩ := by
  simp [alread_exists, hmiss]

/-- Witness for C6: a fresh engine, whose empty cache misses. -/
theorem C6_oracle_failure_not_cached_witness :
    freshVerdict DedupEngine.init.cache ("query_performance" ++ ":" ++ "fp") 0 = none ∧
    alread_exists DedupEngine.init "fp" "query_performance" 1 0 (.error .connError) =
      ⟨false, DedupEngine.init, true, some (existsQuery "query_performance" 1)⟩ :=
  ⟨rfl, C6_oracle_failure_not_cached DedupEngine.init "fp" "query_performance" 1 0 .connError rfl⟩

/-- C7 counterexample.  The claim says a transport publish failure inside
`emit` is surfaced to the caller.  With a publish that raises a
connection error, `emit` returns normally (`Except.ok ()`), logging the
error but not re-raising it — the `except` clause swallows it. -/
theorem C7_counterexample_swallowed :
    (emit (.ok "payload") pubFail).toCaller = Except.ok () ∧
    (emit (.ok "payload") pubFail).errorLogged = true :=
  ⟨rfl, rfl⟩

/-- C7 amended.  When the transport publish inside `emit` fails, the
failure is logged but not surfaced: `emit` catches the exception and
returns normally, so its caller observes a plain `None` return. -/
theorem C7_amended_emit_logs_and_swallows (payload : String)
    (publish : String → Except PyErr Unit) (e : PyErr)
    (hfail : publish payload = .error e) :
    (emit (.ok payload) publish).toCaller = Except.ok () ∧
    (emit (.ok payload) publish).errorLogged = true := by
  refine ⟨?_, ?_⟩ <;> simp [emit, hfail]

/-- Witness for the amended C7 at a concrete failing publish. -/
theorem C7_amended_witness :
    pubFail "payload" = Except.error PyErr.connError ∧
    (emit (.ok "payload") pubFail).toCaller = Except.ok () ∧
    (emit (.ok "payload") pubFail).errorLogged = true :=
  ⟨rfl, (C7_amended_emit_logs_and_swallows "payload" pubFail .connError rfl).1,
    (C7_amended_emit_logs_and_swallows "payload" pubFail .connError rfl).2⟩

/-- C8.  `cleanup` iterates every subscribed channel; because
`Database.unlisten_channel` catches its own exceptions, one channel's
release failure is logged (`errorUnlisten`) and does not stop the loop:
every subscribed channel whose release succeeds is removed from the
listener registry, whatever happens on the other channels. -/
theorem C8_cleanup_best_effort (subs listeners : List String) (removeOk : String → Bool)
    (hnd : listeners.Nodup) (c : String) (hc : c ∈ subs) (hm : c ∈ listeners) :
    (removeOk c = true → c ∉ (cleanup subs listeners removeOk).1) ∧
    (removeOk c = false → LogEntry.errorUnlisten c ∈ (cleanup subs listeners removeOk).2) := by
  unfold cleanup
  induction subs generalizing listeners with
  | nil => cases hc
  | cons a rest ih =>
    by_cases hca : c = a
    · subst hca
      constructor
      · intro hok
        simp only [cleanupAux, unlisten_channel, if_pos hm, hok, if_pos rfl]
        exact not_mem_cleanupAux rest _ (fun hmem => (hnd.mem_erase_iff.mp hmem).1 rfl)
      · intro hfail
        simp only [cleanupAux, unlisten_channel, if_pos hm, hfail]
        simp
    · have hcr : c ∈ rest := by
        rcases List.mem_cons.mp hc with h | h
        · exact absurd h hca
        · exact h
      have hm2 : c ∈ (unlisten_channel listeners removeOk a).1 :=
        mem_unlisten_of_ne hca hm
      have hnd2 : (unlisten_channel listeners removeOk a).1.Nodup := nodup_unlisten hnd
      have := ih _ hnd2 hcr hm2
      constructor
      · intro hok
        simp only [cleanupAux]
        exact this.1 hok
      · intro hfail
        simp only [cleanupAux]
        exact List.mem_append_right _ (this.2 hfail)

/-- Witness for C8: three subscribed and listened channels, release
failing exactly on the middle one; the later channel is still released
and the failure is logged. -/
theorem C8_cleanup_best_effort_witness :
    (["a", "b", "c"] : List String).Nodup ∧
    "c" ∉ (cleanup ["a", "b", "c"] ["a", "b", "c"] rokW).1 ∧
    LogEntry.errorUnlisten "b" ∈ (cleanup ["a", "b", "c"] ["a", "b", "c"] rokW).2 :=
  ⟨by decide,
    (C8_cleanup_best_effort ["a", "b", "c"] ["a", "b", "c"] rokW (by decide) "c"
      (by decide) (by decide)).1 (by decide),
    (C8_cleanup_best_effort ["a", "b", "c"] ["a", "b", "c"] rokW (by decide) "b"
      (by decide) (by decide)).2 (by decide)⟩

/-- C9 counterexample.  With a valid int bucket interval of 5 and an
observation whose timestamp field is present but unparsable, the code
falls back to `datetime.utcnow()`: two calls one hour apart bucket to
different instants and return different fingerprints, so
`generate_fingerprint` is not a function of the observation alone. -/
theorem C9_counterexample_unparsable_depends_on_now :
    generate_fingerprint engIntv5 obsUnparsable true nowA ≠
      generate_fingerprint engIntv5 obsUnparsable true nowB := by
  decide

/-- C9 amended.  `generate_fingerprint` with `bucket_time=True` is
deterministic in the observation (independent of the wall clock) for
every observation whose timestamp is absent, a `datetime` object, or a
parsable string; only the unparsable-string fallback consults
`datetime.utcnow()`. -/
theorem C9_amended_deterministic_when_parsable (eng : DedupEngine) (d : Observation)
    (now1 now2 : Dtm) (h : tsIndependent d = true) :
    generate_fingerprint eng d true now1 = generate_fingerprint eng d true now2 := by
  unfold generate_fingerprint keyParts
  cases hts : d.effTimestamp with
  | none => rfl
  | some ts =>
    cases ts with
    | dt t => simp [bucket_timestamp]
    | str raw =>
      simp only [tsIndependent, hts] at h
      obtain ⟨t, htp⟩ := Option.isSome_iff_exists.mp h
      simp [bucket_timestamp, htp]

/-- Witness for the amended C9: the scenario observation parses, and its
fingerprint is the same at two wall-clock instants an hour apart. -/
theorem C9_amended_witness :
    tsIndependent obsScenarioA = true ∧
    generate_fingerprint engIntv5 obsScenarioA true nowA =
      generate_fingerprint engIntv5 obsScenarioA true nowB :=
  ⟨by decide, C9_amended_deterministic_when_parsable engIntv5 obsScenarioA nowA nowB (by decide)⟩

/-- C10.  When no time-valued field is present (truthy), the `or` chain
yields a falsy value, the `if timestamp:` guard skips the time part, and
the key is `db_id:table_name:event_type` plus the disambiguators:
the key parts carry no time component, and any two such observations
with equal identifying fields get the same fingerprint, for every
engine, bucket mode, and wall-clock instant. -/
theorem C10_no_time_fields_same_fingerprint
    (d1 d2 : Observation) (eng1 eng2 : DedupEngine) (b1 b2 : Bool) (now1 now2 : Dtm)
    (h1 : d1.effTimestamp = none) (h2 : d2.effTimestamp = none)
    (hdb : d1.db_id = d2.db_id) (htab : d1.table_name = d2.table_name)
    (hev : d1.event_type = d2.event_type) (hq : d1.query_hash = d2.query_hash)
    (hi : d1.index_name = d2.index_name) (hcol : d1.column_name = d2.column_name) :
    keyParts eng1 d1 b1 now1 =
      Except.ok ([d1.db_id, d1.table_name, d1.event_type] ++
        (match d1.query_hash with | none => [] | some s => [s]) ++
        (match d1.index_name with | none => [] | some s => [s]) ++
        (match d1.column_name with | none => [] | some s => [s])) ∧
    generate_fingerprint eng1 d1 b1 now1 = generate_fingerprint eng2 d2 b2 now2 := by
  constructor
  · simp only [keyParts, h1]
    rfl
  · simp [generate_fingerprint, keyParts, h1, h2, hdb, htab, hev, hq, hi, hcol]

/-- Witness for C10: one timeless observation, hashed under the two
engines, both bucket modes, and two instants. -/
theorem C10_no_time_fields_same_fingerprint_witness :
    obsNoTime.effTimestamp = none ∧
    generate_fingerprint DedupEngine.init obsNoTime true nowA =
      generate_fingerprint engIntv5 obsNoTime false nowB :=
  ⟨rfl, (C10_no_time_fields_same_fingerprint obsNoTime obsNoTime DedupEngine.init engIntv5
    true false nowA nowB rfl rfl rfl rfl rfl rfl rfl rfl).2⟩
